import Mathlib

/-!
Verification of the two utility scripts of the speedrota repository:
the Background Remover (src/remove_bg.py) and the Converter Dispatcher
(src/convert_docx_to_pdf.py), shallowly embedded as pure Lean functions.
-/

namespace SpeedRota

/-! ### Background Remover — src/remove_bg.py -/

/-- An RGBA pixel as yielded by getdata after convert RGBA: a 4-tuple of
channel values. -/
structure Pixel where
  r : Nat
  g : Nat
  b : Nat
  a : Nat
deriving DecidableEq, Repr

/-- Body of the threshold loop (src/remove_bg.py lines 8-12): a pixel whose
three colour channels all exceed 230 becomes fully transparent white,
any other pixel is kept as is. -/
def removePixel (p : Pixel) : Pixel :=
  if p.r > 230 ∧ p.g > 230 ∧ p.b > 230 then ⟨255, 255, 255, 0⟩ else p

/-- The new_data accumulation loop over the whole pixel sequence
(src/remove_bg.py lines 7-12): appends the transformed pixel for each
input pixel in order. -/
def removeBackground (data : List Pixel) : List Pixel :=
  data.map removePixel

/-- Semantics of PIL convert RGBA on a source without an alpha channel
(src/remove_bg.py line 3): each RGB pixel gains an opaque alpha of 255. -/
def convertRGBA (rgb : Nat × Nat × Nat) : Pixel :=
  ⟨rgb.1, rgb.2.1, rgb.2.2, 255⟩

/-! ### Converter Dispatcher — src/convert_docx_to_pdf.py -/

/-- Result of evaluating a Python call: a normal value, or a raised
exception carrying a diagnostic message. -/
inductive PyResult (α : Type) where
  | ok (val : α)
  | exn (msg : String)
deriving DecidableEq, Repr

/-- Behaviour of an external program if invoked: it may fail to launch
(missing executable and the like), or run for some duration in seconds and
exit with a code. -/
inductive ProcBehaviour where
  | launchFailure (msg : String)
  | runs (duration : Nat) (code : Int)
deriving DecidableEq, Repr

/-- Semantics of subprocess.run with a timeout: a launch failure raises,
a process outliving the timeout raises TimeoutExpired, otherwise the
completed process yields its return code. -/
def subprocessRun (timeoutSec : Nat) (beh : ProcBehaviour) : PyResult Int :=
  match beh with
  | .launchFailure msg => .exn msg
  | .runs d code => if d > timeoutSec then .exn "TimeoutExpired" else .ok code

/-- The host environment a single run of the dispatcher observes: whether
the hardcoded input file exists, the platform string, and the behaviour of
each of the three conversion backends. -/
structure Env where
  inputExists : Bool
  platform : String
  docx2pdfCall : PyResult Unit
  libreofficeBeh : ProcBehaviour
  pandocBeh : ProcBehaviour
deriving DecidableEq, Repr

/-- Timeout passed to the LibreOffice subprocess call
(src/convert_docx_to_pdf.py line 28). -/
def libreofficeTimeout : Nat := 120

/-- Timeout passed to the Pandoc subprocess call
(src/convert_docx_to_pdf.py line 39). -/
def pandocTimeout : Nat := 120

/-- convert_with_docx2pdf: attempts the docx2pdf import and conversion;
returns True on success, and on any exception prints a diagnostic and
returns False (src/convert_docx_to_pdf.py lines 12-20). Result is the
returned boolean together with the printed lines. -/
def convert_with_docx2pdf (e : Env) : Bool × List String :=
  match e.docx2pdfCall with
  | .ok _ => (true, [])
  | .exn msg => (false, ["docx2pdf falhou: " ++ msg])

/-- convert_with_libreoffice: runs the libreoffice headless subprocess with
a 120 second timeout; returns whether the exit code is zero, and on any
exception prints a diagnostic and returns False
(src/convert_docx_to_pdf.py lines 22-32). -/
def convert_with_libreoffice (e : Env) : Bool × List String :=
  match subprocessRun libreofficeTimeout e.libreofficeBeh with
  | .ok code => (decide (code = 0), [])
  | .exn msg => (false, ["LibreOffice falhou: " ++ msg])

/-- convert_with_pandoc: runs the pandoc subprocess with a 120 second
timeout; returns whether the exit code is zero, and on any exception
prints a diagnostic and returns False
(src/convert_docx_to_pdf.py lines 34-43). -/
def convert_with_pandoc (e : Env) : Bool × List String :=
  match subprocessRun pandocTimeout e.pandocBeh with
  | .ok code => (decide (code = 0), [])
  | .exn msg => (false, ["Pandoc falhou: " ++ msg])

/-- The three conversion backends, in the order main tries them. -/
inductive Backend where
  | docx2pdf
  | libreoffice
  | pandoc
deriving DecidableEq, Repr

/-- How a run of main ends: an explicit sys.exit with a status, or a normal
return after possibly succeeding with some backend. -/
inductive RunResult where
  | exitCode (n : Nat)
  | finished (success : Option Backend)
deriving DecidableEq, Repr

/-- Observable outcome of one run of main: the lines printed, the backends
invoked in order, and how the process ended. -/
structure RunOutput where
  messages : List String
  attempts : List Backend
  result : RunResult
deriving DecidableEq, Repr

/-- Name of the hardcoded input file (src/convert_docx_to_pdf.py line 46). -/
def inputFileName : String := "SpeedRota_Pricing_Brasil_Revisado.docx"

/-- Name of the hardcoded output file (src/convert_docx_to_pdf.py line 47). -/
def outputFileName : String := "SpeedRota_Pricing_Brasil_Revisado.pdf"

/-- The manual-recovery instructions printed when every backend failed
(src/convert_docx_to_pdf.py lines 69-74). -/
def manualFallbackMessages : List String :=
  ["❌ Nenhum conversor disponível.",
   "\nPara converter manualmente:",
   "  Windows: Abra o DOCX no Word e salve como PDF",
   "  Linux: sudo apt install pandoc texlive-latex-base",
   "         pandoc SpeedRota_Pricing_Brasil_Revisado.docx -o SpeedRota_Pricing_Brasil_Revisado.pdf"]

/-- Tail of main after the platform-gated docx2pdf attempt: try LibreOffice,
then Pandoc, stopping at the first success; print the manual fallback if
both fail (src/convert_docx_to_pdf.py lines 61-74). msgs and att carry
the lines printed and backends attempted so far. -/
def mainAfterDocx2pdf (e : Env) (msgs : List String) (att : List Backend) : RunOutput :=
  let l := convert_with_libreoffice e
  if l.1 = true then
    { messages := msgs ++ l.2 ++ ["✓ PDF criado via LibreOffice"],
      attempts := att ++ [Backend.libreoffice],
      result := .finished (some .libreoffice) }
  else
    let p := convert_with_pandoc e
    if p.1 = true then
      { messages := msgs ++ l.2 ++ p.2 ++ ["✓ PDF criado via Pandoc"],
        attempts := att ++ [Backend.libreoffice, Backend.pandoc],
        result := .finished (some .pandoc) }
    else
      { messages := msgs ++ l.2 ++ p.2 ++ manualFallbackMessages,
        attempts := att ++ [Backend.libreoffice, Backend.pandoc],
        result := .finished none }

/-- main (src/convert_docx_to_pdf.py lines 45-74): fail fast with exit
status 1 when the input file is missing; otherwise try docx2pdf on win32
only, then LibreOffice, then Pandoc, stopping at the first success. -/
def main (e : Env) : RunOutput :=
  if e.inputExists = false then
    { messages := ["Arquivo não encontrado: " ++ inputFileName],
      attempts := [],
      result := .exitCode 1 }
  else
    let msgs0 := ["Convertendo: " ++ inputFileName]
    if e.platform = "win32" then
      let d := convert_with_docx2pdf e
      if d.1 = true then
        { messages := msgs0 ++ d.2 ++ ["✓ PDF criado: " ++ outputFileName],
          attempts := [Backend.docx2pdf],
          result := .finished (some .docx2pdf) }
      else
        mainAfterDocx2pdf e (msgs0 ++ d.2) [Backend.docx2pdf]
    else
      mainAfterDocx2pdf e msgs0 []

/-- Exit status of the process for a given run result: an explicit
sys.exit uses its argument, a normal return of main exits with 0. -/
def exitStatus : RunResult → Nat
  | .exitCode n => n
  | .finished _ => 0

/-- Whether a run produced the output PDF: exactly when some backend
reported success. -/
def producedOutput (o : RunOutput) : Bool :=
  match o.result with
  | .finished (some _) => true
  | _ => false

/-! ### Theorems about the Background Remover -/

/-- The per-pixel transform is idempotent. -/
theorem removePixel_idem (p : Pixel) : removePixel (removePixel p) = removePixel p := by
  by_cases h : p.r > 230 ∧ p.g > 230 ∧ p.b > 230
  · simp [removePixel, h]
  · simp [removePixel, h]

/-- C1: for every input pixel of the Background Remover, if all three
colour channels are strictly greater than 230 the corresponding output
pixel is (255,255,255,0); otherwise the output pixel equals the input
pixel unchanged, channel for channel. -/
theorem C1_threshold_rule (data : List Pixel) (i : Nat) (p : Pixel)
    (hp : data[i]? = some p) :
    (p.r > 230 ∧ p.g > 230 ∧ p.b > 230 →
      (removeBackground data)[i]? = some ⟨255, 255, 255, 0⟩) ∧
    (¬ (p.r > 230 ∧ p.g > 230 ∧ p.b > 230) →
      (removeBackground data)[i]? = some p) := by
  constructor
  · intro h
    simp [removeBackground, List.getElem?_map, hp, removePixel, h]
  · intro h
    simp [removeBackground, List.getElem?_map, hp, removePixel, h]

/-- Witness for C1 at a concrete two-pixel image. -/
theorem C1_threshold_rule_witness :
    (removeBackground [Pixel.mk 240 245 250 255, Pixel.mk 10 20 30 255])[0]? =
      some (Pixel.mk 255 255 255 0) ∧
    (removeBackground [Pixel.mk 240 245 250 255, Pixel.mk 10 20 30 255])[1]? =
      some (Pixel.mk 10 20 30 255) :=
  ⟨(C1_threshold_rule [Pixel.mk 240 245 250 255, Pixel.mk 10 20 30 255] 0
      (Pixel.mk 240 245 250 255) rfl).1 (by decide),
   (C1_threshold_rule [Pixel.mk 240 245 250 255, Pixel.mk 10 20 30 255] 1
      (Pixel.mk 10 20 30 255) rfl).2 (by decide)⟩

/-- C4: the Background Remover transform is idempotent on the whole pixel
sequence: applying it to its own output yields the same sequence, so
already-transparent pixels stay (255,255,255,0) and pixels left unchanged
by the first pass are left unchanged by the second. -/
theorem C4_idempotent (data : List Pixel) :
    removeBackground (removeBackground data) = removeBackground data := by
  simp only [removeBackground, List.map_map]
  exact List.map_congr_left fun p _ => removePixel_idem p

/-- C7: the loaded image always carries an alpha channel, with alpha 255 on
pixels of an alpha-less source; the example pixel (240,245,250) maps to
(255,255,255,0) and (10,20,30) maps to (10,20,30) with alpha 255. -/
theorem C7_alpha_channel :
    (∀ rgb : Nat × Nat × Nat, (convertRGBA rgb).a = 255) ∧
    removePixel (convertRGBA (240, 245, 250)) = ⟨255, 255, 255, 0⟩ ∧
    removePixel (convertRGBA (10, 20, 30)) = ⟨10, 20, 30, 255⟩ :=
  ⟨fun _ => rfl, by decide, by decide⟩

/-- C9: the Background Remover preserves length and order: the output has
exactly as many pixels as the input, and the output pixel at every index
is a pure function of the input pixel at that index alone. -/
theorem C9_shape_preserved (data : List Pixel) :
    (removeBackground data).length = data.length ∧
    ∀ i : Nat, (removeBackground data)[i]? = (data[i]?).map removePixel := by
  constructor
  · simp [removeBackground]
  · intro i
    simp [removeBackground, List.getElem?_map]

/-! ### Theorems about the Converter Dispatcher -/

/-- A concrete host where the input exists, the platform is not win32, and
every backend is unavailable. -/
def envAllFail : Env :=
  { inputExists := true,
    platform := "linux",
    docx2pdfCall := PyResult.exn "No module named docx2pdf",
    libreofficeBeh := ProcBehaviour.launchFailure "FileNotFoundError",
    pandocBeh := ProcBehaviour.launchFailure "FileNotFoundError" }

/-- A concrete host where the input file is missing. -/
def envMissing : Env :=
  { inputExists := false,
    platform := "linux",
    docx2pdfCall := PyResult.exn "No module named docx2pdf",
    libreofficeBeh := ProcBehaviour.launchFailure "FileNotFoundError",
    pandocBeh := ProcBehaviour.launchFailure "FileNotFoundError" }

/-- A concrete host where both subprocess backends outlive the timeout. -/
def envTimeout : Env :=
  { inputExists := true,
    platform := "linux",
    docx2pdfCall := PyResult.exn "No module named docx2pdf",
    libreofficeBeh := ProcBehaviour.runs 121 0,
    pandocBeh := ProcBehaviour.runs 121 0 }

/-- C2: when the input exists, main tries docx2pdf first and only on win32,
then unconditionally LibreOffice, then Pandoc, stopping at the first
success; when every attempted backend fails it prints the manual fallback
instructions and returns without producing output. -/
theorem C2_dispatch_order (e : Env) (h : e.inputExists = true) :
    (main e).attempts =
      (if e.platform = "win32" then
        (if (convert_with_docx2pdf e).1 = true then [Backend.docx2pdf]
         else Backend.docx2pdf ::
           (if (convert_with_libreoffice e).1 = true then [Backend.libreoffice]
            else [Backend.libreoffice, Backend.pandoc]))
       else
        (if (convert_with_libreoffice e).1 = true then [Backend.libreoffice]
         else [Backend.libreoffice, Backend.pandoc])) ∧
    (main e).result =
      (if e.platform = "win32" ∧ (convert_with_docx2pdf e).1 = true then
        RunResult.finished (some Backend.docx2pdf)
       else if (convert_with_libreoffice e).1 = true then
        RunResult.finished (some Backend.libreoffice)
       else if (convert_with_pandoc e).1 = true then
        RunResult.finished (some Backend.pandoc)
       else RunResult.finished none) ∧
    (((e.platform = "win32" → (convert_with_docx2pdf e).1 = false) ∧
        (convert_with_libreoffice e).1 = false ∧ (convert_with_pandoc e).1 = false) →
      (main e).result = RunResult.finished none ∧
      List.IsSuffix manualFallbackMessages (main e).messages ∧
      producedOutput (main e) = false) := by
  have hsuffix : ∀ (msgs : List String) (att : List Backend),
      (convert_with_libreoffice e).1 = false → (convert_with_pandoc e).1 = false →
      List.IsSuffix manualFallbackMessages (mainAfterDocx2pdf e msgs att).messages := by
    intro msgs att hl hp
    refine ⟨msgs ++ (convert_with_libreoffice e).2 ++ (convert_with_pandoc e).2, ?_⟩
    simp [mainAfterDocx2pdf, hl, hp]
  refine ⟨?_, ?_, ?_⟩
  · by_cases hw : e.platform = "win32" <;>
    by_cases hd : (convert_with_docx2pdf e).1 = true <;>
    by_cases hl : (convert_with_libreoffice e).1 = true <;>
    by_cases hp : (convert_with_pandoc e).1 = true <;>
    simp_all [main, mainAfterDocx2pdf]
  · by_cases hw : e.platform = "win32" <;>
    by_cases hd : (convert_with_docx2pdf e).1 = true <;>
    by_cases hl : (convert_with_libreoffice e).1 = true <;>
    by_cases hp : (convert_with_pandoc e).1 = true <;>
    simp_all [main, mainAfterDocx2pdf]
  · rintro ⟨hdi, hl, hp⟩
    have hres : (main e).result = RunResult.finished none := by
      by_cases hw : e.platform = "win32" <;>
      simp_all [main, mainAfterDocx2pdf]
    refine ⟨hres, ?_, ?_⟩
    · by_cases hw : e.platform = "win32"
      · have hd := hdi hw
        have hmain : main e = mainAfterDocx2pdf e
            (["Convertendo: " ++ inputFileName] ++ (convert_with_docx2pdf e).2)
            [Backend.docx2pdf] := by
          simp [main, h, hw, hd]
        rw [hmain]
        exact hsuffix _ _ hl hp
      · have hmain : main e = mainAfterDocx2pdf e
            ["Convertendo: " ++ inputFileName] [] := by
          simp [main, h, hw]
        rw [hmain]
        exact hsuffix _ _ hl hp
    · simp [producedOutput, hres]

/-- Witness for C2: on the all-backends-unavailable host the run ends in a
plain return with the manual instructions printed and no output. -/
theorem C2_dispatch_order_witness :
    (main envAllFail).result = RunResult.finished none ∧
    List.IsSuffix manualFallbackMessages (main envAllFail).messages ∧
    producedOutput (main envAllFail) = false :=
  (C2_dispatch_order envAllFail rfl).2.2
    ⟨fun hw => absurd hw (by decide), by decide, by decide⟩

/-- C3: invoking any backend that is unavailable (import failure, missing
executable, timeout or other exception, or non-zero exit code) yields False
from the corresponding convert function — exceptions never escape to the
dispatcher, which receives an ordinary boolean. -/
theorem C3_backend_failure_confined (e : Env) :
    (∀ msg, e.docx2pdfCall = PyResult.exn msg →
      convert_with_docx2pdf e = (false, ["docx2pdf falhou: " ++ msg])) ∧
    (∀ msg, e.libreofficeBeh = ProcBehaviour.launchFailure msg →
      convert_with_libreoffice e = (false, ["LibreOffice falhou: " ++ msg])) ∧
    (∀ d c, e.libreofficeBeh = ProcBehaviour.runs d c →
      d > libreofficeTimeout ∨ c ≠ 0 → (convert_with_libreoffice e).1 = false) ∧
    (∀ msg, e.pandocBeh = ProcBehaviour.launchFailure msg →
      convert_with_pandoc e = (false, ["Pandoc falhou: " ++ msg])) ∧
    (∀ d c, e.pandocBeh = ProcBehaviour.runs d c →
      d > pandocTimeout ∨ c ≠ 0 → (convert_with_pandoc e).1 = false) := by
  refine ⟨?_, ?_, ?_, ?_, ?_⟩
  · intro msg hc
    simp [convert_with_docx2pdf, hc]
  · intro msg hc
    simp [convert_with_libreoffice, subprocessRun, hc]
  · intro d c hc hfail
    by_cases hdt : d > libreofficeTimeout
    · simp [convert_with_libreoffice, subprocessRun, hc, hdt]
    · rcases hfail with hfail | hfail
      · exact absurd hfail hdt
      · simp [convert_with_libreoffice, subprocessRun, hc, hdt, hfail]
  · intro msg hc
    simp [convert_with_pandoc, subprocessRun, hc]
  · intro d c hc hfail
    by_cases hdt : d > pandocTimeout
    · simp [convert_with_pandoc, subprocessRun, hc, hdt]
    · rcases hfail with hfail | hfail
      · exact absurd hfail hdt
      · simp [convert_with_pandoc, subprocessRun, hc, hdt, hfail]

/-- Witness for C3 on the all-backends-unavailable host. -/
theorem C3_backend_failure_confined_witness :
    convert_with_docx2pdf envAllFail =
      (false, ["docx2pdf falhou: No module named docx2pdf"]) ∧
    convert_with_libreoffice envAllFail =
      (false, ["LibreOffice falhou: FileNotFoundError"]) ∧
    (convert_with_pandoc envAllFail).1 = false :=
  ⟨(C3_backend_failure_confined envAllFail).1 "No module named docx2pdf" rfl,
   (C3_backend_failure_confined envAllFail).2.1 "FileNotFoundError" rfl,
   by
    rw [(C3_backend_failure_confined envAllFail).2.2.2.1 "FileNotFoundError" rfl]⟩

/-- C5: on a missing input file, main reports it, attempts no backend,
produces no output, and exits with a non-zero status. -/
theorem C5_missing_input (e : Env) (h : e.inputExists = false) :
    (main e).attempts = [] ∧
    (main e).result = RunResult.exitCode 1 ∧
    exitStatus (main e).result ≠ 0 ∧
    producedOutput (main e) = false ∧
    (main e).messages = ["Arquivo não encontrado: " ++ inputFileName] := by
  simp [main, h, exitStatus, producedOutput]

/-- Witness for C5 on the missing-input host. -/
theorem C5_missing_input_witness :
    (main envMissing).attempts = [] ∧
    (main envMissing).result = RunResult.exitCode 1 ∧
    exitStatus (main envMissing).result ≠ 0 :=
  ⟨(C5_missing_input envMissing rfl).1,
   (C5_missing_input envMissing rfl).2.1,
   (C5_missing_input envMissing rfl).2.2.1⟩

/-- C6: both subprocess backends are configured with a 120 second budget,
and a process outliving it is treated as a failure of that backend. -/
theorem C6_timeout_budget (e : Env) (d : Nat) (c : Int) (hd : d > 120) :
    libreofficeTimeout = 120 ∧ pandocTimeout = 120 ∧
    (e.libreofficeBeh = ProcBehaviour.runs d c →
      convert_with_libreoffice e = (false, ["LibreOffice falhou: TimeoutExpired"])) ∧
    (e.pandocBeh = ProcBehaviour.runs d c →
      convert_with_pandoc e = (false, ["Pandoc falhou: TimeoutExpired"])) := by
  refine ⟨rfl, rfl, ?_, ?_⟩
  · intro hc
    simp [convert_with_libreoffice, subprocessRun, hc, libreofficeTimeout, hd]
  · intro hc
    simp [convert_with_pandoc, subprocessRun, hc, pandocTimeout, hd]

/-- Witness for C6 on the host where both subprocess backends run for 121
seconds. -/
theorem C6_timeout_budget_witness :
    convert_with_libreoffice envTimeout =
      (false, ["LibreOffice falhou: TimeoutExpired"]) ∧
    convert_with_pandoc envTimeout =
      (false, ["Pandoc falhou: TimeoutExpired"]) :=
  ⟨(C6_timeout_budget envTimeout 121 0 (by decide)).2.2.1 rfl,
   (C6_timeout_budget envTimeout 121 0 (by decide)).2.2.2 rfl⟩

/-- C8: within a single run of main each backend is invoked at most once;
no failed backend is retried. -/
theorem C8_each_backend_at_most_once (e : Env) (b : Backend) :
    ((main e).attempts).count b ≤ 1 := by
  by_cases h0 : e.inputExists = false <;>
  by_cases hw : e.platform = "win32" <;>
  by_cases hd : (convert_with_docx2pdf e).1 = true <;>
  by_cases hl : (convert_with_libreoffice e).1 = true <;>
  by_cases hp : (convert_with_pandoc e).1 = true <;>
  cases b <;>
  simp_all [main, mainAfterDocx2pdf, List.count_cons, List.count_nil]

/-- C10: when the input exists and every attempted backend fails, main
returns normally, so the process ends with exit status zero. -/
theorem C10_all_fail_exit_zero (e : Env) (h : e.inputExists = true)
    (hd : e.platform = "win32" → (convert_with_docx2pdf e).1 = false)
    (hl : (convert_with_libreoffice e).1 = false)
    (hp : (convert_with_pandoc e).1 = false) :
    (main e).result = RunResult.finished none ∧
    exitStatus (main e).result = 0 := by
  by_cases hw : e.platform = "win32" <;>
  simp_all [main, mainAfterDocx2pdf, exitStatus]

/-- Witness for C10 on the all-backends-unavailable host. -/
theorem C10_all_fail_exit_zero_witness :
    (main envAllFail).result = RunResult.finished none ∧
    exitStatus (main envAllFail).result = 0 :=
  C10_all_fail_exit_zero envAllFail rfl
    (fun hw => absurd hw (by decide)) (by decide) (by decide)

end SpeedRota
